import Mathlib

/-!
Shallow embedding of the teneo price/market agent (main.go, two observed
variants) and proofs about its dispatcher, provider clients and response
formatter.

Modelling conventions:
* Go float64 values are idealized as exact decimal fractions (every finite
  float64 is a finite decimal), see GoFloat.
* The network is an explicit oracle: each provider call's outcome
  (transport error / HTTP status / JSON decode result) is a FetchResult
  parameter of the function that issues the request.
* A Go (string, error) return is a String together with a Bool that is
  true exactly when the error is non-nil.  ClientOutcome additionally
  records, as observational instrumentation, whether the HTTP request was
  actually issued and which headers were set on it.
-/

namespace PMO

/-- One decimal digit character: digitChar k renders k % 10. -/
def digitChar (k : Nat) : Char := Char.ofNat (48 + k % 10)

/-- Decimal digits of a natural number, least significant first.  The fuel
argument (always sufficient at n + 1) keeps the recursion structural. -/
def natDigitsRevAux : Nat → Nat → List Char
  | _, 0 => []
  | n, fuel + 1 => if n < 10 then [digitChar n] else digitChar n :: natDigitsRevAux (n / 10) fuel

def natDigitsRev (n : Nat) : List Char := natDigitsRevAux n (n + 1)

/-- x/text "en" locale digit grouping: a comma every three digits, applied
to a least-significant-first digit list. -/
def group3Rev : List Char → List Char
  | a :: b :: c :: d :: rest => a :: b :: c :: ',' :: group3Rev (d :: rest)
  | l => l

/-- Decimal rendering of a Nat with en-locale thousands grouping. -/
def groupedNat (n : Nat) : String := ⟨(group3Rev (natDigitsRev n)).reverse⟩

/-- Plain decimal rendering of a Nat (no grouping), as in Go fmt. -/
def plainNat (n : Nat) : String := ⟨(natDigitsRev n).reverse⟩

/-- Exactly two digit characters, as the fraction part of %.2f. -/
def twoDigits (n : Nat) : String := ⟨[digitChar (n / 10), digitChar n]⟩

/-- A Go float64 value, idealized as the exact decimal mant / 10 ^ dec.
Every finite float64 is exactly such a decimal, so no value the program
manipulates is lost; binary rounding is idealized away. -/
structure GoFloat where
  mant : Int
  dec : Nat
deriving DecidableEq, Repr

/-- The absolute value of x in cents, rounded to the nearest integer: the
digit content of Sprintf %.2f (rounding idealized as round-half-up on the
exact decimal). -/
def cents2 (x : GoFloat) : Nat := (x.mant.natAbs * 100 + 10 ^ x.dec / 2) / 10 ^ x.dec

/-- fmt.Sprintf %.2f (plain fmt, no locale grouping). -/
def sprintfF2 (x : GoFloat) : String :=
  (if x.mant < 0 then "-" else "") ++ plainNat (cents2 x / 100) ++ "." ++ twoDigits (cents2 x % 100)

/-- main.go formatCurrency: the en-locale message printer with "$%.2f",
i.e. a dollar sign, the sign, a thousands-grouped integer part and two
fraction digits. -/
def formatCurrency (x : GoFloat) : String :=
  "$" ++ (if x.mant < 0 then "-" else "") ++ groupedNat (cents2 x / 100) ++ "." ++ twoDigits (cents2 x % 100)

/-- fmt.Sprintf "%.2f%%" as applied to the 24h change fields. -/
def sprintfPct2 (x : GoFloat) : String := sprintfF2 x ++ "%"

/-- main.go formatQuantity: 0 renders as "N/A", otherwise %.0f through the
en-locale printer (thousands grouping). -/
def formatQuantity (x : GoFloat) : String :=
  if x.mant = 0 then "N/A"
  else (if x.mant < 0 then "-" else "") ++ groupedNat ((x.mant.natAbs + 10 ^ x.dec / 2) / 10 ^ x.dec)

/-- Numeric value of a big-endian digit character list. -/
def digitsVal (cs : List Char) : Nat := cs.foldl (fun a c => a * 10 + (c.toNat - 48)) 0

/-- strconv.ParseFloat on ordinary decimal inputs (sign, digits with an
optional point, optional exponent), idealized to exact decimals.  The
special forms the program never produces (inf, nan, hex floats) are not
modelled.  none corresponds to a non-nil parse error; Go yields value 0
where that error is discarded. -/
def parseFloat? (s : String) : Option GoFloat :=
  let cs := s.data
  let signNeg := match cs with
    | '-' :: _ => true
    | _ => false
  let cs1 := match cs with
    | '-' :: r => r
    | '+' :: r => r
    | r => r
  let ip := cs1.takeWhile Char.isDigit
  let r1 := cs1.dropWhile Char.isDigit
  let fp := match r1 with
    | '.' :: r => r.takeWhile Char.isDigit
    | _ => []
  let r2 := match r1 with
    | '.' :: r => r.dropWhile Char.isDigit
    | r => r
  if ip.isEmpty && fp.isEmpty then none
  else
    let m0 : Int := Int.ofNat (digitsVal (ip ++ fp))
    let m := if signNeg then -m0 else m0
    match r2 with
    | [] => some ⟨m, fp.length⟩
    | e :: r3 =>
      if e = 'e' ∨ e = 'E' then
        let expNeg := match r3 with
          | '-' :: _ => true
          | _ => false
        let r4 := match r3 with
          | '-' :: r => r
          | '+' :: r => r
          | r => r
        let ed := r4.takeWhile Char.isDigit
        let r5 := r4.dropWhile Char.isDigit
        if ed.isEmpty ∨ ¬ r5.isEmpty then none
        else if expNeg then some ⟨m, fp.length + digitsVal ed⟩
        else some ⟨m * Int.ofNat (10 ^ digitsVal ed), fp.length⟩
      else none

/-- strings.ToLower (character-wise; the program only feeds it ASCII). -/
def goToLower (s : String) : String := ⟨s.data.map Char.toLower⟩

/-- strings.ToUpper (character-wise; the program only feeds it ASCII). -/
def goToUpper (s : String) : String := ⟨s.data.map Char.toUpper⟩

/-- strings.TrimSpace. -/
def goTrim (s : String) : String :=
  ⟨((s.data.dropWhile Char.isWhitespace).reverse.dropWhile Char.isWhitespace).reverse⟩

/-- Accumulator-based splitting of a character list into whitespace
separated fields. -/
def fieldsAux : List Char → List Char → List (List Char)
  | acc, [] => if acc.isEmpty then [] else [acc.reverse]
  | acc, c :: r =>
    if Char.isWhitespace c then
      (if acc.isEmpty then fieldsAux [] r else acc.reverse :: fieldsAux [] r)
    else fieldsAux (c :: acc) r

/-- strings.Fields: the whitespace-separated tokens of s. -/
def goFields (s : String) : List String := (fieldsAux [] s.data).map (fun l => ⟨l⟩)

/-- Does sub occur as a prefix of s (character lists)? -/
def startsChars : List Char → List Char → Bool
  | [], _ => true
  | _ :: _, [] => false
  | a :: restA, b :: restB => a = b && startsChars restA restB

/-- Does sub occur as a contiguous run inside s (character lists)? -/
def subChars (sub : List Char) : List Char → Bool
  | [] => sub.isEmpty
  | b :: restB => startsChars sub (b :: restB) || subChars sub restB

/-- strings.Contains: sub occurs as a substring of s. -/
def goContains (s sub : String) : Bool := subChars sub.data s.data

/-- strings.HasPrefix. -/
def goStartsWith (s pre : String) : Bool := startsChars pre.data s.data

/-- strings.HasSuffix. -/
def goHasSuffix (s suf : String) : Bool := startsChars suf.data.reverse s.data.reverse

/-- strings.TrimSuffix: remove suf once when it is a suffix of s. -/
def goTrimSuffix (s suf : String) : String :=
  if goHasSuffix s suf then ⟨(s.data.reverse.drop suf.data.length).reverse⟩ else s

/-- The static ticker → CoinGecko id table of the first variant. -/
def coinIDMap : List (String × String) :=
  [("btc", "bitcoin"), ("eth", "ethereum"), ("sol", "solana"), ("ada", "cardano"),
   ("doge", "dogecoin"), ("shib", "shiba-inu"), ("pepe", "pepe"), ("avax", "avalanche"),
   ("link", "chainlink"), ("uni", "uniswap"), ("matic", "polygon"), ("ltc", "litecoin")]

/-- main.go getCoinID (first variant): table lookup on the lowercased
input, identity on the lowercased input otherwise. -/
def getCoinID (input : String) : String :=
  match coinIDMap.lookup (goToLower input) with
  | some id => id
  | none => goToLower input

/-- strings.Split(raw, ";") over the character list. -/
def splitSemi : List Char → List (List Char)
  | [] => [[]]
  | c :: r =>
    match splitSemi r with
    | [] => [[]]
    | s :: ss => if c = ';' then [] :: s :: ss else (c :: s) :: ss

/-- strings.SplitN(pair, ":", 2): split at the first colon; none when no
colon occurs (the Go code then drops the segment). -/
def breakColon : List Char → Option (List Char × List Char)
  | [] => none
  | c :: r =>
    if c = ':' then some ([], r)
    else match breakColon r with
      | none => none
      | some kv => some (c :: kv.1, kv.2)

/-- The key/value pairs of the semicolon-separated segments, in order;
segments without a colon are dropped (formatOutput step 1). -/
def pairsOfSegs (segs : List (List Char)) : List (String × String) :=
  segs.filterMap (fun cs => (breakColon cs).map (fun kv => (⟨kv.1⟩, ⟨kv.2⟩)))

def parsePairs (raw : String) : List (String × String) := pairsOfSegs (splitSemi raw.data)

/-- The Go map built by inserting each parsed pair in order
(parts[k] = v; a later duplicate key overwrites an earlier one). -/
def goMapOfList (l : List (String × String)) : String → Option String :=
  l.foldl (fun m kv => fun x => if x = kv.1 then some kv.2 else m x) (fun _ => none)

/-- The 24h-change line of formatOutput. -/
def changeLine (change : String) : String :=
  let trimmed := goTrimSuffix change "%"
  match parseFloat? trimmed with
  | some q =>
    if 0 ≤ q.mant then "- **24h Change:** **🟢 +" ++ change ++ "**\n"
    else "- **24h Change:** **🔴 " ++ change ++ "**\n"
  | none => if change = "" then "" else "- **24h Change:** " ++ change ++ "\n"

/-- An optional line of formatOutput: emitted only when the key is present
with a non-empty value. -/
def optLine (m : String → Option String) (key label : String) : String :=
  match m key with
  | some v => if v ≠ "" then label ++ v ++ "\n" else ""
  | none => ""

/-- The circulating-supply line: additionally suppressed for the "N/A"
placeholder. -/
def supplyLine (m : String → Option String) : String :=
  match m "circulating_supply" with
  | some v => if v ≠ "N/A" ∧ v ≠ "" then "- **Circulating Supply:** " ++ v ++ "\n" else ""
  | none => ""

/-- main.go formatOutput. -/
def formatOutput (rawOutput : String) : String :=
  let m := goMapOfList (parsePairs rawOutput)
  let source := (m "token_source").getD ""
  let price := (m "current_price_usd").getD ""
  let change := (m "24h_change").getD ""
  let tn := (m "name").getD ""
  let tokenName := if tn = "" then "Token" else tn
  "💰 **" ++ tokenName ++ " Price & Market Overview**\n"
    ++ ("- **Price (USD):** " ++ price ++ "\n")
    ++ changeLine change
    ++ optLine m "market_cap_usd" "- **Market Cap:** "
    ++ optLine m "volume_24h" "- **24h Volume:** "
    ++ optLine m "fdv" "- **Fully Diluted Value (FDV):** "
    ++ supplyLine m
    ++ ("\n*(Data provided by " ++ goToUpper source ++ ")*")

structure CMCStatus where
  errorCode : Int
  errorMessage : String
deriving DecidableEq, Repr

structure CMCQuoteUSD where
  price : GoFloat
  volume24h : GoFloat
  marketCap : GoFloat
  percentChange24h : GoFloat
deriving DecidableEq, Repr

structure CMCData where
  id : Int
  name : String
  symbol : String
  circulatingSupply : GoFloat
  totalSupply : GoFloat
  quote : CMCQuoteUSD
deriving DecidableEq, Repr

structure CMCResponse where
  status : CMCStatus
  data : List (String × CMCData)
deriving DecidableEq, Repr

structure CGMarketData where
  currentPriceUsd : GoFloat
  currentPriceEur : GoFloat
  priceChangePercentage24h : GoFloat
  marketCapUsd : GoFloat
  circulatingSupply : GoFloat
  totalSupply : GoFloat
deriving DecidableEq, Repr

structure CoinGeckoResponse where
  id : String
  symbol : String
  name : String
  marketData : CGMarketData
deriving DecidableEq, Repr

structure DexToken where
  address : String
  name : String
  symbol : String
deriving DecidableEq, Repr

structure DexVolume where
  h24 : GoFloat
  h6 : GoFloat
  h1 : GoFloat
  m5 : GoFloat
deriving DecidableEq, Repr

structure DexPair where
  chainId : String
  pairAddress : String
  baseToken : DexToken
  quoteToken : DexToken
  priceUsd : String
  volume : DexVolume
  fdv : GoFloat
deriving DecidableEq, Repr

structure DexscreenerResponse where
  pairs : List DexPair
deriving DecidableEq, Repr

/-- The outcome of one HTTP GET as the network delivers it: a transport
error from client.Do, or a response with a status code whose body either
decodes to the expected JSON shape or fails to decode. -/
inductive FetchResult (β : Type) where
  | transportError
  | response (status : Nat) (decoded : Option β)
deriving DecidableEq

/-- What one provider client call produced.  msg and hasErr are Go's
(string, error) return, hasErr true exactly when the error is non-nil;
called records whether the client reached client.Do, and headers which
request headers it set — observational instrumentation used to state the
no-network-call and auth-header claims. -/
structure ClientOutcome where
  msg : String
  hasErr : Bool
  called : Bool
  headers : List (String × String)
deriving DecidableEq, Repr

/-- Lookup in a decoded JSON object modelled as an association list (a
later duplicate key overwrites an earlier one, as in Go's decoder). -/
def goLookup {α : Type} (l : List (String × α)) (k : String) : Option α := l.reverse.lookup k

/-- The coingecko success serialization of getCoinGeckoData. -/
def cgSuccessMsg (d : CoinGeckoResponse) : String :=
  "token_source:coingecko;current_price_usd:" ++ formatCurrency d.marketData.currentPriceUsd
    ++ ";current_price_eur:" ++ formatCurrency d.marketData.currentPriceEur
    ++ ";24h_change:" ++ sprintfPct2 d.marketData.priceChangePercentage24h
    ++ ";market_cap_usd:" ++ formatCurrency d.marketData.marketCapUsd
    ++ ";circulating_supply:" ++ formatQuantity d.marketData.circulatingSupply
    ++ ";total_supply:" ++ formatQuantity d.marketData.totalSupply

/-- main.go getCoinGeckoData: attach the x-cg-demo-api-key header only for
a non-empty key, treat a non-200 status as a textual result carrying no
error, a decode failure as a hard failure. -/
def getCoinGeckoData (coinID apiKey : String) (fetch : FetchResult CoinGeckoResponse) : ClientOutcome :=
  let hs := if apiKey ≠ "" then [("x-cg-demo-api-key", apiKey)] else []
  match fetch with
  | .transportError => ⟨"Error contacting CoinGecko API.", true, true, hs⟩
  | .response status decoded =>
    if status ≠ 200 then
      ⟨"Error: CoinGecko API returned status " ++ Nat.repr status ++ ". Could not find data for " ++ coinID ++ ".", false, true, hs⟩
    else
      match decoded with
      | none => ⟨"Error processing CG API response.", true, true, hs⟩
      | some d => ⟨cgSuccessMsg d, false, true, hs⟩

/-- The coinmarketcap success serialization of getCMCData. -/
def cmcSuccessMsg (d : CMCData) : String :=
  "token_source:coinmarketcap;current_price_usd:" ++ formatCurrency d.quote.price
    ++ ";24h_change:" ++ sprintfPct2 d.quote.percentChange24h
    ++ ";market_cap_usd:" ++ formatCurrency d.quote.marketCap
    ++ ";circulating_supply:" ++ formatQuantity d.circulatingSupply
    ++ ";total_supply:" ++ formatQuantity d.totalSupply

/-- main.go getCMCData.  It returns before issuing the request when
CMC_API_KEY is empty, and it never inspects the HTTP status code: any
response body is decoded directly. -/
def getCMCData (symbol apiKey : String) (fetch : FetchResult CMCResponse) : ClientOutcome :=
  if apiKey = "" then ⟨"Error: CMC_API_KEY not found in .env file.", false, false, []⟩
  else
    let hs := [("X-CMC_PRO_API_KEY", apiKey)]
    match fetch with
    | .transportError => ⟨"Error contacting CoinMarketCap API.", true, true, hs⟩
    | .response _ decoded =>
      match decoded with
      | none => ⟨"Error processing CMC API response.", true, true, hs⟩
      | some cryptoData =>
        if cryptoData.status.errorCode ≠ 0 then
          ⟨"CMC could not find market data for symbol: " ++ symbol ++ ". Error: " ++ cryptoData.status.errorMessage, false, true, hs⟩
        else
          match goLookup cryptoData.data (goToUpper symbol) with
          | none => ⟨"CMC could not find market data for symbol: " ++ symbol ++ ". Try another symbol.", false, true, hs⟩
          | some d => ⟨cmcSuccessMsg d, false, true, hs⟩

/-- The dexscreener success serialization of getDexData, built from the
first pair only; the priceUsd parse error is discarded, leaving price 0. -/
def dexSuccessMsg (pair : DexPair) : String :=
  "token_source:dexscreener;chain_id:" ++ pair.chainId
    ++ ";current_price_usd:" ++ formatCurrency ((parseFloat? pair.priceUsd).getD ⟨0, 0⟩)
    ++ ";volume_24h:" ++ formatCurrency pair.volume.h24
    ++ ";fdv:" ++ formatCurrency pair.fdv
    ++ ";base_token:" ++ pair.baseToken.symbol

/-- main.go getDexData.  A transport error yields an empty message with a
non-nil error; no credential is ever attached. -/
def getDexData (tokenAddress : String) (fetch : FetchResult DexscreenerResponse) : ClientOutcome :=
  match fetch with
  | .transportError => ⟨"", true, true, []⟩
  | .response status decoded =>
    if status ≠ 200 then ⟨"Dexscreener Error: API returned status " ++ Nat.repr status ++ ".", false, true, []⟩
    else
      match decoded with
      | none => ⟨"Error processing Dexscreener response.", true, true, []⟩
      | some d =>
        match d.pairs with
        | [] => ⟨"Dexscreener found no pairs for that token address.", false, true, []⟩
        | pair :: _ => ⟨dexSuccessMsg pair, false, true, []⟩

inductive Provider where
  | cmc
  | cg
  | dex
deriving DecidableEq, Repr

/-- The environment one ProcessTask invocation runs in: the API keys and
the network's response to each provider request the invocation may issue. -/
structure World where
  cmcApiKey : String
  cgApiKey : String
  cmcFetch : FetchResult CMCResponse
  cgFetch : FetchResult CoinGeckoResponse
  dexFetch : FetchResult DexscreenerResponse

/-- main.go ProcessTask (first variant).  Returns Go's (string, error)
pair (error as a Bool) together with the list of providers whose HTTP
request was actually issued, in order. -/
def ProcessTask (w : World) (input : String) : String × Bool × List Provider :=
  match goFields input with
  | p0 :: p1 :: _ =>
    let command := goToLower p0
    if command ≠ "/price" ∧ command ≠ "/market" then
      ("Unknown command: " ++ command ++ ". Use /price or /market.", false, [])
    else
      let cleanInput := goToLower (goTrim p1)
      if goStartsWith cleanInput "0x" = true ∧ 40 ≤ cleanInput.utf8ByteSize then
        let r := getDexData cleanInput w.dexFetch
        if r.hasErr then ("Error fetching DEX data.", true, [Provider.dex])
        else (formatOutput r.msg, false, [Provider.dex])
      else
        let rc := getCMCData p1 w.cmcApiKey w.cmcFetch
        let t0 := if rc.called then [Provider.cmc] else []
        if rc.hasErr = false ∧ goContains rc.msg "CMC could not find market data" = false then
          (formatOutput rc.msg, false, t0)
        else
          let rg := getCoinGeckoData (getCoinID p1) w.cgApiKey w.cgFetch
          if rg.hasErr = false ∧ goContains rg.msg "Could not find data for" = false then
            (formatOutput rg.msg, false, t0 ++ [Provider.cg])
          else
            ("Could not find market data for " ++ p1 ++ " on CoinMarketCap or CoinGecko. Please ensure the symbol is correct or use a contract address for DEX listings.", false, t0 ++ [Provider.cg])
  | _ => ("Please specify a command (/price or /market) and a token symbol or contract address.", false, [])

/-- The static ticker → CoinGecko id table of the second variant. -/
def coinIDMapV2 : List (String × String) :=
  [("btc", "bitcoin"), ("eth", "ethereum"), ("sol", "solana"),
   ("ada", "cardano"), ("dot", "polkadot"), ("xrp", "ripple")]

/-- getCoinID of the second variant. -/
def getCoinIDV2 (input : String) : String :=
  match coinIDMapV2.lookup (goToLower input) with
  | some id => id
  | none => goToLower input

/-- Second variant: the simple-price JSON, a map coin id → currency →
value. -/
def PriceResponse : Type := List (String × List (String × GoFloat))

/-- Second variant: one entry of the coins/markets JSON array. -/
structure MarketEntry where
  name : String
  currentPrice : GoFloat
  marketCap : GoFloat
  priceChangePercentage24h : GoFloat
  lastUpdatedTimestamp : Int

/-- Second variant handlePriceCommand.  strings.ToTitle on an ASCII coin
id is modelled as toUpper. -/
def handlePriceCommand (args : List String) (apiKey : String) (fetch : FetchResult PriceResponse) : ClientOutcome :=
  match args with
  | [] => ⟨"Please specify a cryptocurrency symbol (e.g., price bitcoin)", false, false, []⟩
  | a :: _ =>
    let coinID := getCoinIDV2 a
    let hs := if apiKey ≠ "" then [("x-cg-demo-api-key", apiKey)] else []
    match fetch with
    | .transportError => ⟨"Error contacting CoinGecko API.", true, true, hs⟩
    | .response status decoded =>
      if status ≠ 200 then
        ⟨"Error: CoinGecko API returned status " ++ Nat.repr status ++ ". Rate limit likely exceeded.", false, true, hs⟩
      else
        match decoded with
        | none => ⟨"Error processing API response.", true, true, hs⟩
        | some data =>
          match goLookup data coinID with
          | none => ⟨"Could not find price data for symbol: " ++ coinID ++ ". Please check the spelling.", false, true, hs⟩
          | some priceData =>
            if priceData.isEmpty then
              ⟨"Could not find price data for symbol: " ++ coinID ++ ". Please check the spelling.", false, true, hs⟩
            else
              ⟨goToUpper coinID ++ " Price: $" ++ sprintfF2 ((goLookup priceData "usd").getD ⟨0, 0⟩), false, true, hs⟩

/-- Second variant handleMarketCommand; the time.Unix(...).Format library
call is abstracted as the fmtTime oracle. -/
def handleMarketCommand (args : List String) (apiKey : String) (fetch : FetchResult (List MarketEntry)) (fmtTime : Int → String) : ClientOutcome :=
  match args with
  | [] => ⟨"Please specify a cryptocurrency symbol (e.g., market ethereum)", false, false, []⟩
  | a :: _ =>
    let coinID := getCoinIDV2 a
    let hs := if apiKey ≠ "" then [("x-cg-demo-api-key", apiKey)] else []
    match fetch with
    | .transportError => ⟨"Error contacting CoinGecko API.", true, true, hs⟩
    | .response status decoded =>
      if status ≠ 200 then
        ⟨"Error: CoinGecko API returned status " ++ Nat.repr status ++ ". Rate limit likely exceeded.", false, true, hs⟩
      else
        match decoded with
        | none => ⟨"Error processing API response.", true, true, hs⟩
        | some l =>
          match l with
          | [] => ⟨"Could not find market data for symbol: " ++ coinID ++ ". Please check the spelling.", false, true, hs⟩
          | d :: _ =>
            ⟨"\n" ++ d.name ++ " Market Overview:\n----------------------\nCurrent Price: $" ++ sprintfF2 d.currentPrice
              ++ "\nMarket Cap: $" ++ sprintfF2 d.marketCap
              ++ "\n24h Change: " ++ sprintfF2 d.priceChangePercentage24h
              ++ "%\nLast Updated: " ++ fmtTime d.lastUpdatedTimestamp ++ "\n", false, true, hs⟩

/-- The environment of one second-variant ProcessTask invocation. -/
structure WorldV2 where
  cgApiKey : String
  priceFetch : FetchResult PriceResponse
  marketFetch : FetchResult (List MarketEntry)
  fmtTime : Int → String

/-- The second variant's task preprocessing: trim, strip one leading "/",
lowercase. -/
def prepTask (s : String) : String :=
  let t := goTrim s
  goToLower (if goStartsWith t "/" then ⟨t.data.drop 1⟩ else t)

/-- ProcessTask of the second variant. -/
def ProcessTaskV2 (w : WorldV2) (input : String) : String × Bool × List Provider :=
  match goFields (prepTask input) with
  | [] => ("No command provided. Available commands: price [symbol], market [symbol]", false, [])
  | command :: args =>
    if command = "price" then
      let r := handlePriceCommand args w.cgApiKey w.priceFetch
      (r.msg, r.hasErr, if r.called then [Provider.cg] else [])
    else if command = "market" then
      let r := handleMarketCommand args w.cgApiKey w.marketFetch w.fmtTime
      (r.msg, r.hasErr, if r.called then [Provider.cg] else [])
    else
      ("Unknown command '" ++ command ++ "'. Available commands: price [symbol], market [symbol]", false, [])

/-! ### Helper lemmas: splitting, lookup and character sets -/

theorem splitSemi_ne_nil (cs : List Char) : splitSemi cs ≠ [] := by
  induction cs with
  | nil => simp [splitSemi]
  | cons c r ih =>
    simp only [splitSemi]
    rcases h : splitSemi r with _ | ⟨s, ss⟩
    · exact absurd h ih
    · by_cases hc : c = ';' <;> simp [hc]

theorem splitSemi_nosemi (xs : List Char) (h : ∀ c ∈ xs, c ≠ ';') : splitSemi xs = [xs] := by
  induction xs with
  | nil => rfl
  | cons c r ih =>
    have hc : c ≠ ';' := h c (List.mem_cons_self ..)
    have hr := ih (fun x hx => h x (List.mem_cons_of_mem _ hx))
    simp [splitSemi, hr, hc]

theorem splitSemi_append (xs ys : List Char) (h : ∀ c ∈ xs, c ≠ ';') :
    splitSemi (xs ++ ';' :: ys) = xs :: splitSemi ys := by
  induction xs with
  | nil =>
    simp only [List.nil_append, splitSemi]
    rcases hy : splitSemi ys with _ | ⟨s, ss⟩
    · exact absurd hy (splitSemi_ne_nil ys)
    · simp
  | cons c r ih =>
    have hc : c ≠ ';' := h c (List.mem_cons_self ..)
    have hr := ih (fun x hx => h x (List.mem_cons_of_mem _ hx))
    simp [List.cons_append, splitSemi, hr, hc]

theorem breakColon_none (cs : List Char) (h : ∀ c ∈ cs, c ≠ ':') : breakColon cs = none := by
  induction cs with
  | nil => rfl
  | cons c r ih =>
    have hc : c ≠ ':' := h c (List.mem_cons_self ..)
    have hr := ih (fun x hx => h x (List.mem_cons_of_mem _ hx))
    simp [breakColon, hc, hr]

theorem breakColon_append (ks vs : List Char) (h : ∀ c ∈ ks, c ≠ ':') :
    breakColon (ks ++ ':' :: vs) = some (ks, vs) := by
  induction ks with
  | nil => simp [breakColon]
  | cons c r ih =>
    have hc : c ≠ ':' := h c (List.mem_cons_self ..)
    have hr := ih (fun x hx => h x (List.mem_cons_of_mem _ hx))
    simp [breakColon, hc, hr]

theorem lookup_append (l₁ l₂ : List (String × String)) (k : String) :
    (l₁ ++ l₂).lookup k = (l₁.lookup k).or (l₂.lookup k) := by
  induction l₁ with
  | nil => simp [List.lookup]
  | cons kv t ih =>
    rcases kv with ⟨a, b⟩
    by_cases hk : k = a
    · simp [List.lookup, hk, Option.or]
    · have : (k == a) = false := beq_eq_false_iff_ne.mpr hk
      simp [List.lookup, this, ih]

theorem goMapOfList_aux (l : List (String × String)) (m : String → Option String) (k : String) :
    l.foldl (fun m kv => fun x => if x = kv.1 then some kv.2 else m x) m k
      = (l.reverse.lookup k).or (m k) := by
  induction l generalizing m with
  | nil => simp [List.lookup]
  | cons kv t ih =>
    simp only [List.foldl_cons, ih, List.reverse_cons, lookup_append]
    rcases h : t.reverse.lookup k with _ | v
    · by_cases hk : k = kv.1
      · simp [List.lookup, hk, Option.or]
      · have : (k == kv.1) = false := beq_eq_false_iff_ne.mpr hk
        simp [List.lookup, this, hk, Option.or]
    · simp [Option.or]

/-- The Go map built from the parsed pair list answers with the value of
the LAST occurrence of a key (a later duplicate overwrites an earlier
one). -/
theorem goMapOfList_eq_lookup (l : List (String × String)) (k : String) :
    goMapOfList l k = l.reverse.lookup k := by
  have h := goMapOfList_aux l (fun _ => none) k
  rcases hl : l.reverse.lookup k with _ | v <;>
    simpa [goMapOfList, hl, Option.or] using h

/-- Characters of formatted numbers never collide with the two
serialization separators. -/
def sepFree (c : Char) : Prop := c ≠ ';' ∧ c ≠ ':'

instance (c : Char) : Decidable (sepFree c) := by unfold sepFree; infer_instance

theorem digitChar_sepFree (k : Nat) : sepFree (digitChar k) := by
  have h : k % 10 < 10 := Nat.mod_lt _ (by omega)
  unfold digitChar
  set m := k % 10 with hm
  interval_cases m <;> decide

theorem natDigitsRevAux_sepFree (fuel n : Nat) : ∀ c ∈ natDigitsRevAux n fuel, sepFree c := by
  induction fuel generalizing n with
  | zero => simp [natDigitsRevAux]
  | succ f ih =>
    intro c hc
    simp only [natDigitsRevAux] at hc
    split at hc
    · simp only [List.mem_singleton] at hc
      exact hc ▸ digitChar_sepFree n
    · rcases List.mem_cons.mp hc with h | h
      · exact h ▸ digitChar_sepFree n
      · exact ih _ c h

theorem group3Rev_mem : ∀ (l : List Char), ∀ c ∈ group3Rev l, c ∈ l ∨ c = ','
  | [] => by simp [group3Rev]
  | [a] => by simp [group3Rev]
  | [a, b] => by simp [group3Rev]
  | [a, b, c] => by simp [group3Rev]
  | a :: b :: c :: d :: rest => by
    intro x hx
    simp only [group3Rev, List.mem_cons] at hx
    rcases hx with h | h | h | h | h
    · exact Or.inl (by simp [h])
    · exact Or.inl (by simp [h])
    · exact Or.inl (by simp [h])
    · exact Or.inr h
    · rcases group3Rev_mem (d :: rest) x h with h' | h'
      · exact Or.inl (by simp only [List.mem_cons] at h' ⊢; tauto)
      · exact Or.inr h'

/-- Every character of s avoids the serialization separators. -/
def sepFreeStr (s : String) : Prop := ∀ c ∈ s.data, sepFree c

instance (s : String) : Decidable (sepFreeStr s) := by unfold sepFreeStr; infer_instance

theorem sepFreeStr_append {a b : String} (ha : sepFreeStr a) (hb : sepFreeStr b) :
    sepFreeStr (a ++ b) := by
  intro c hc
  rw [String.data_append] at hc
  rcases List.mem_append.mp hc with h | h
  exacts [ha c h, hb c h]

theorem groupedNat_sepFree (n : Nat) : sepFreeStr (groupedNat n) := by
  intro c hc
  have hc' : c ∈ group3Rev (natDigitsRev n) := by
    simpa [groupedNat] using List.mem_reverse.mp hc
  rcases group3Rev_mem _ c hc' with h | h
  · exact natDigitsRevAux_sepFree _ _ c h
  · exact h ▸ (by decide : sepFree ',')

theorem plainNat_sepFree (n : Nat) : sepFreeStr (plainNat n) := by
  intro c hc
  exact natDigitsRevAux_sepFree _ _ c (by simpa [plainNat] using List.mem_reverse.mp hc)

theorem twoDigits_sepFree (n : Nat) : sepFreeStr (twoDigits n) := by
  intro c hc
  simp only [twoDigits, List.mem_cons] at hc
  rcases hc with h | h | h
  · exact h ▸ digitChar_sepFree _
  · exact h ▸ digitChar_sepFree _
  · simp at h

theorem formatCurrency_sepFree (x : GoFloat) : sepFreeStr (formatCurrency x) := by
  unfold formatCurrency
  refine sepFreeStr_append (sepFreeStr_append (sepFreeStr_append ?_ ?_) ?_) ?_
  · exact sepFreeStr_append (by decide) (by split <;> decide)
  · exact groupedNat_sepFree _
  · decide
  · exact twoDigits_sepFree _

theorem sprintfF2_sepFree (x : GoFloat) : sepFreeStr (sprintfF2 x) := by
  unfold sprintfF2
  refine sepFreeStr_append (sepFreeStr_append (sepFreeStr_append ?_ ?_) ?_) ?_
  · split <;> decide
  · exact plainNat_sepFree _
  · decide
  · exact twoDigits_sepFree _

theorem sprintfPct2_sepFree (x : GoFloat) : sepFreeStr (sprintfPct2 x) :=
  sepFreeStr_append (sprintfF2_sepFree x) (by decide)

theorem formatQuantity_sepFree (x : GoFloat) : sepFreeStr (formatQuantity x) := by
  unfold formatQuantity
  split
  · decide
  · exact sepFreeStr_append (by split <;> decide) (groupedNat_sepFree _)

/-- One well-formed segment of a provider serialization, followed by a
semicolon and more segments, parses to its key/value pair followed by the
parse of the rest. -/
theorem parsePairs_step (key val rest : List Char)
    (hkey : ∀ c ∈ key, c ≠ ';' ∧ c ≠ ':') (hval : ∀ c ∈ val, c ≠ ';') :
    pairsOfSegs (splitSemi (key ++ ':' :: val ++ ';' :: rest))
      = ((⟨key⟩ : String), (⟨val⟩ : String)) :: pairsOfSegs (splitSemi rest) := by
  have hseg : ∀ c ∈ key ++ ':' :: val, c ≠ ';' := by
    intro c hc
    rcases List.mem_append.mp hc with h | h
    · exact (hkey c h).1
    · rcases List.mem_cons.mp h with h' | h'
      · subst h'; decide
      · exact hval c h'
  have hshape : key ++ ':' :: val ++ ';' :: rest = (key ++ ':' :: val) ++ ';' :: rest := by
    simp [List.append_assoc]
  rw [hshape, splitSemi_append _ _ hseg]
  simp [pairsOfSegs, List.filterMap_cons,
    breakColon_append key val (fun c hc => (hkey c hc).2)]

/-- A final well-formed segment parses to its single key/value pair. -/
theorem parsePairs_last (key val : List Char)
    (hkey : ∀ c ∈ key, c ≠ ';' ∧ c ≠ ':') (hval : ∀ c ∈ val, c ≠ ';') :
    pairsOfSegs (splitSemi (key ++ ':' :: val)) = [((⟨key⟩ : String), (⟨val⟩ : String))] := by
  have hseg : ∀ c ∈ key ++ ':' :: val, c ≠ ';' := by
    intro c hc
    rcases List.mem_append.mp hc with h | h
    · exact (hkey c h).1
    · rcases List.mem_cons.mp h with h' | h'
      · subst h'; decide
      · exact hval c h'
  rw [splitSemi_nosemi _ hseg]
  simp [pairsOfSegs, List.filterMap_cons,
    breakColon_append key val (fun c hc => (hkey c hc).2)]

/-- The CMC success serialization parses back to exactly its six fields,
in order. -/
theorem parsePairs_cmcSuccess (d : CMCData) :
    parsePairs (cmcSuccessMsg d) =
      [("token_source", "coinmarketcap"),
       ("current_price_usd", formatCurrency d.quote.price),
       ("24h_change", sprintfPct2 d.quote.percentChange24h),
       ("market_cap_usd", formatCurrency d.quote.marketCap),
       ("circulating_supply", formatQuantity d.circulatingSupply),
       ("total_supply", formatQuantity d.totalSupply)] := by
  have e₁ : ("token_source:coinmarketcap;current_price_usd:" : String).data
      = "token_source".data ++ ':' :: "coinmarketcap".data ++ ';' :: "current_price_usd".data ++ [':'] := by decide
  have e₂ : (";24h_change:" : String).data = ';' :: "24h_change".data ++ [':'] := by decide
  have e₃ : (";market_cap_usd:" : String).data = ';' :: "market_cap_usd".data ++ [':'] := by decide
  have e₄ : (";circulating_supply:" : String).data = ';' :: "circulating_supply".data ++ [':'] := by decide
  have e₅ : (";total_supply:" : String).data = ';' :: "total_supply".data ++ [':'] := by decide
  have hdata : (cmcSuccessMsg d).data =
      "token_source".data ++ ':' :: "coinmarketcap".data
        ++ ';' :: ("current_price_usd".data ++ ':' :: (formatCurrency d.quote.price).data
        ++ ';' :: ("24h_change".data ++ ':' :: (sprintfPct2 d.quote.percentChange24h).data
        ++ ';' :: ("market_cap_usd".data ++ ':' :: (formatCurrency d.quote.marketCap).data
        ++ ';' :: ("circulating_supply".data ++ ':' :: (formatQuantity d.circulatingSupply).data
        ++ ';' :: ("total_supply".data ++ ':' :: (formatQuantity d.totalSupply).data))))) := by
    simp [cmcSuccessMsg, String.data_append, e₁, e₂, e₃, e₄, e₅, List.append_assoc]
  unfold parsePairs
  rw [hdata]
  rw [parsePairs_step _ _ _ (by decide) (by decide)]
  rw [parsePairs_step _ _ _ (by decide)
    (fun c hc => (formatCurrency_sepFree d.quote.price c hc).1)]
  rw [parsePairs_step _ _ _ (by decide)
    (fun c hc => (sprintfPct2_sepFree d.quote.percentChange24h c hc).1)]
  rw [parsePairs_step _ _ _ (by decide)
    (fun c hc => (formatCurrency_sepFree d.quote.marketCap c hc).1)]
  rw [parsePairs_step _ _ _ (by decide)
    (fun c hc => (formatQuantity_sepFree d.circulatingSupply c hc).1)]
  rw [parsePairs_last _ _ (by decide)
    (fun c hc => (formatQuantity_sepFree d.totalSupply c hc).1)]

theorem formatCurrency_ne_empty (x : GoFloat) : formatCurrency x ≠ "" := by
  intro h
  have h' := congrArg String.data h
  simp [formatCurrency, String.data_append] at h'

/-! ### Claims -/

/-- Claim C10: when the Dexscreener response holds at least one pair whose
priceUsd string does not parse as a float, the DEX client ignores the
parse error and reports the price "$0.00" with a nil error, and only the
first pair of the response is ever used. -/
theorem C10_dex_price_parse_ignored (addr : String) (p : DexPair)
    (rest rest' : List DexPair) (hp : parseFloat? p.priceUsd = none) :
    getDexData addr (FetchResult.response 200 (some ⟨p :: rest⟩))
        = ⟨dexSuccessMsg p, false, true, []⟩
  ∧ formatCurrency ((parseFloat? p.priceUsd).getD ⟨0, 0⟩) = "$0.00"
  ∧ getDexData addr (FetchResult.response 200 (some ⟨p :: rest⟩))
      = getDexData addr (FetchResult.response 200 (some ⟨p :: rest'⟩)) := by
  refine ⟨by simp [getDexData], ?_, by simp [getDexData]⟩
  rw [hp]
  decide

/-- Witness for C10 at a concrete pair with unparseable price "abc". -/
theorem C10_witness :
    parseFloat? "abc" = none
  ∧ getDexData "0xdeadbeef" (FetchResult.response 200
      (some ⟨[⟨"ethereum", "0xp", ⟨"0xb", "Base", "BASE"⟩, ⟨"0xq", "Quote", "QUOTE"⟩,
              "abc", ⟨⟨5, 0⟩, ⟨0, 0⟩, ⟨0, 0⟩, ⟨0, 0⟩⟩, ⟨7, 0⟩⟩]⟩))
      = ⟨dexSuccessMsg ⟨"ethereum", "0xp", ⟨"0xb", "Base", "BASE"⟩, ⟨"0xq", "Quote", "QUOTE"⟩,
              "abc", ⟨⟨5, 0⟩, ⟨0, 0⟩, ⟨0, 0⟩, ⟨0, 0⟩⟩, ⟨7, 0⟩⟩, false, true, []⟩
  ∧ formatCurrency ((parseFloat? "abc").getD ⟨0, 0⟩) = "$0.00" := by
  refine ⟨by decide, ?_, ?_⟩
  · exact (C10_dex_price_parse_ignored "0xdeadbeef" _ [] [] (by decide)).1
  · exact (C10_dex_price_parse_ignored "0xdeadbeef"
      ⟨"ethereum", "0xp", ⟨"0xb", "Base", "BASE"⟩, ⟨"0xq", "Quote", "QUOTE"⟩,
        "abc", ⟨⟨5, 0⟩, ⟨0, 0⟩, ⟨0, 0⟩, ⟨0, 0⟩⟩, ⟨7, 0⟩⟩ [] [] (by decide)).2.1

/-- Claim C9: a circulating (or total) supply whose value is exactly 0 —
which is also what an absent JSON field decodes to — is serialized by
formatQuantity as the literal "N/A"; the formatter drops the
circulating-supply line whenever the parsed value is "N/A", and in
particular does so for every CMC quote whose circulating supply is 0, so
a zero supply is indistinguishable from an absent one in the output. -/
theorem C9_zero_supply_na :
    (∀ x : GoFloat, x.mant = 0 → formatQuantity x = "N/A")
  ∧ (∀ m : String → Option String, m "circulating_supply" = some "N/A" → supplyLine m = "")
  ∧ (∀ d : CMCData, d.circulatingSupply.mant = 0 →
      goMapOfList (parsePairs (cmcSuccessMsg d)) "circulating_supply" = some "N/A")
  ∧ (∀ d : CMCData, d.circulatingSupply.mant = 0 →
      formatOutput (cmcSuccessMsg d) =
        "💰 **Token Price & Market Overview**\n"
          ++ ("- **Price (USD):** " ++ formatCurrency d.quote.price ++ "\n")
          ++ changeLine (sprintfPct2 d.quote.percentChange24h)
          ++ ("- **Market Cap:** " ++ formatCurrency d.quote.marketCap ++ "\n")
          ++ "\n*(Data provided by COINMARKETCAP)*") := by
  have hna : ∀ x : GoFloat, x.mant = 0 → formatQuantity x = "N/A" := by
    intro x hx
    simp [formatQuantity, hx]
  have hsup : ∀ m : String → Option String, m "circulating_supply" = some "N/A" →
      supplyLine m = "" := by
    intro m hm
    simp [supplyLine, hm]
  have hmap : ∀ d : CMCData, d.circulatingSupply.mant = 0 →
      goMapOfList (parsePairs (cmcSuccessMsg d)) "circulating_supply" = some "N/A" := by
    intro d hd
    rw [goMapOfList_eq_lookup, parsePairs_cmcSuccess, hna d.circulatingSupply hd]
    simp [List.lookup]
  refine ⟨hna, hsup, hmap, ?_⟩
  intro d hd
  have hmc := formatCurrency_ne_empty d.quote.marketCap
  have hupper : goToUpper "coinmarketcap" = "COINMARKETCAP" := by decide
  simp only [formatOutput, optLine, supplyLine, goMapOfList_eq_lookup, parsePairs_cmcSuccess,
    hna d.circulatingSupply hd]
  simp [List.lookup, hmc, hupper]

/-- Witness for C9 at a concrete CMC quote with circulating supply 0. -/
theorem C9_witness :
    (⟨1, "Bitcoin", "BTC", ⟨0, 5⟩, ⟨21, 0⟩,
        ⟨⟨100, 0⟩, ⟨0, 0⟩, ⟨2000, 0⟩, ⟨500, 2⟩⟩⟩ : CMCData).circulatingSupply.mant = 0
  ∧ formatQuantity (⟨0, 5⟩ : GoFloat) = "N/A"
  ∧ formatOutput (cmcSuccessMsg ⟨1, "Bitcoin", "BTC", ⟨0, 5⟩, ⟨21, 0⟩,
        ⟨⟨100, 0⟩, ⟨0, 0⟩, ⟨2000, 0⟩, ⟨500, 2⟩⟩⟩) =
      "💰 **Token Price & Market Overview**\n"
        ++ ("- **Price (USD):** " ++ formatCurrency (⟨100, 0⟩ : GoFloat) ++ "\n")
        ++ changeLine (sprintfPct2 ⟨500, 2⟩)
        ++ ("- **Market Cap:** " ++ formatCurrency (⟨2000, 0⟩ : GoFloat) ++ "\n")
        ++ "\n*(Data provided by COINMARKETCAP)*" := by
  refine ⟨rfl, C9_zero_supply_na.1 ⟨0, 5⟩ rfl, ?_⟩
  exact C9_zero_supply_na.2.2.2 ⟨1, "Bitcoin", "BTC", ⟨0, 5⟩, ⟨21, 0⟩,
    ⟨⟨100, 0⟩, ⟨0, 0⟩, ⟨2000, 0⟩, ⟨500, 2⟩⟩⟩ rfl

/-- Claim C8: parsing the semicolon-joined key:value string is such that
the built map answers with the last occurrence of a duplicate key, any
segment lacking a colon is dropped while the remaining segments are still
parsed, and each optional output line (market cap, volume, FDV,
circulating supply) is emitted only when its key is present with a
non-empty value (and, for the supply, not the literal "N/A"). -/
theorem C8_parse_and_optional_lines :
    (∀ (l : List (String × String)) (k : String), goMapOfList l k = l.reverse.lookup k)
  ∧ (∀ (s₁ s₂ : List (List Char)) (bad : List Char), (∀ c ∈ bad, c ≠ ':') →
      pairsOfSegs (s₁ ++ bad :: s₂) = pairsOfSegs (s₁ ++ s₂))
  ∧ (∀ raw : String, parsePairs raw = pairsOfSegs (splitSemi raw.data))
  ∧ (∀ (m : String → Option String) key label, m key = none → optLine m key label = "")
  ∧ (∀ (m : String → Option String) key label, m key = some "" → optLine m key label = "")
  ∧ (∀ (m : String → Option String) key label v, m key = some v → v ≠ "" →
      optLine m key label = label ++ v ++ "\n")
  ∧ (∀ m : String → Option String, m "circulating_supply" = some "N/A" → supplyLine m = "")
  ∧ (∀ m : String → Option String, m "circulating_supply" = none → supplyLine m = "")
  ∧ (∀ (m : String → Option String) v, m "circulating_supply" = some v → v ≠ "N/A" → v ≠ "" →
      supplyLine m = "- **Circulating Supply:** " ++ v ++ "\n")
  ∧ (∀ raw : String, formatOutput raw =
      "💰 **" ++ (if (goMapOfList (parsePairs raw) "name").getD "" = "" then "Token"
          else (goMapOfList (parsePairs raw) "name").getD "") ++ " Price & Market Overview**\n"
        ++ ("- **Price (USD):** " ++ (goMapOfList (parsePairs raw) "current_price_usd").getD "" ++ "\n")
        ++ changeLine ((goMapOfList (parsePairs raw) "24h_change").getD "")
        ++ optLine (goMapOfList (parsePairs raw)) "market_cap_usd" "- **Market Cap:** "
        ++ optLine (goMapOfList (parsePairs raw)) "volume_24h" "- **24h Volume:** "
        ++ optLine (goMapOfList (parsePairs raw)) "fdv" "- **Fully Diluted Value (FDV):** "
        ++ supplyLine (goMapOfList (parsePairs raw))
        ++ ("\n*(Data provided by " ++ goToUpper ((goMapOfList (parsePairs raw) "token_source").getD "") ++ ")*")) := by
  refine ⟨goMapOfList_eq_lookup, ?_, fun _ => rfl, ?_, ?_, ?_, ?_, ?_, ?_, fun _ => rfl⟩
  · intro s₁ s₂ bad h
    simp [pairsOfSegs, List.filterMap_append, List.filterMap_cons, breakColon_none bad h]
  · intro m key label h; simp [optLine, h]
  · intro m key label h; simp [optLine, h]
  · intro m key label v h hv; simp [optLine, h, hv]
  · intro m h; simp [supplyLine, h]
  · intro m h; simp [supplyLine, h]
  · intro m v h hv hv'; simp [supplyLine, h, hv, hv']

/-- Witness for C8: a raw string with a duplicate key (last wins), a
malformed segment (dropped) and an "N/A" supply (line omitted). -/
theorem C8_witness :
    goMapOfList (parsePairs "a:1;junk;a:2") "a" = some "2"
  ∧ parsePairs "a:1;junk;a:2" = parsePairs "a:1;a:2"
  ∧ optLine (goMapOfList (parsePairs "market_cap_usd:$5.00")) "market_cap_usd" "- **Market Cap:** "
      = "- **Market Cap:** $5.00\n"
  ∧ optLine (goMapOfList (parsePairs "x:1")) "market_cap_usd" "- **Market Cap:** " = ""
  ∧ supplyLine (goMapOfList (parsePairs "circulating_supply:N/A")) = "" := by
  refine ⟨?_, ?_, ?_, ?_, ?_⟩
  · rw [C8_parse_and_optional_lines.1]; decide
  · rw [C8_parse_and_optional_lines.2.2.1, C8_parse_and_optional_lines.2.2.1]; decide
  · exact C8_parse_and_optional_lines.2.2.2.2.2.1 _ "market_cap_usd" _ "$5.00" (by decide) (by decide)
  · exact C8_parse_and_optional_lines.2.2.2.1 _ "market_cap_usd" _ (by decide)
  · exact C8_parse_and_optional_lines.2.2.2.2.2.2.1 _ (by decide)

/-- Claim C7: the 24h-change line of the formatter carries the green
marker and an added "+" for a change string parsing to a non-negative
number, the red marker and no duplicated sign for a negative one, no line
at all for an empty change string, and the raw string with no marker for
an unparseable one — shown in general over changeLine and end to end on
formatOutput at the four example inputs. -/
theorem C7_change_line :
    (∀ (c : String) (q : GoFloat), parseFloat? (goTrimSuffix c "%") = some q → 0 ≤ q.mant →
        changeLine c = "- **24h Change:** **🟢 +" ++ c ++ "**\n")
  ∧ (∀ (c : String) (q : GoFloat), parseFloat? (goTrimSuffix c "%") = some q → q.mant < 0 →
        changeLine c = "- **24h Change:** **🔴 " ++ c ++ "**\n")
  ∧ changeLine "" = ""
  ∧ (∀ c : String, parseFloat? (goTrimSuffix c "%") = none → c ≠ "" →
        changeLine c = "- **24h Change:** " ++ c ++ "\n")
  ∧ formatOutput "token_source:test;current_price_usd:$1.00;24h_change:5.00%"
      = "💰 **Token Price & Market Overview**\n- **Price (USD):** $1.00\n- **24h Change:** **🟢 +5.00%**\n\n*(Data provided by TEST)*"
  ∧ formatOutput "token_source:test;current_price_usd:$1.00;24h_change:-3.20%"
      = "💰 **Token Price & Market Overview**\n- **Price (USD):** $1.00\n- **24h Change:** **🔴 -3.20%**\n\n*(Data provided by TEST)*"
  ∧ formatOutput "token_source:test;current_price_usd:$1.00;24h_change:"
      = "💰 **Token Price & Market Overview**\n- **Price (USD):** $1.00\n\n*(Data provided by TEST)*"
  ∧ formatOutput "token_source:test;current_price_usd:$1.00;24h_change:abc%"
      = "💰 **Token Price & Market Overview**\n- **Price (USD):** $1.00\n- **24h Change:** abc%\n\n*(Data provided by TEST)*" := by
  refine ⟨?_, ?_, by decide, ?_, by decide, by decide, by decide, by decide⟩
  · intro c q hq h0
    simp [changeLine, hq, h0]
  · intro c q hq h0
    have : ¬ 0 ≤ q.mant := by omega
    simp [changeLine, hq, this]
  · intro c hq hc
    simp [changeLine, hq, hc]

/-- Witness for C7 at the four example change strings. -/
theorem C7_witness :
    changeLine "5.00%" = "- **24h Change:** **🟢 +5.00%**\n"
  ∧ changeLine "-3.20%" = "- **24h Change:** **🔴 -3.20%**\n"
  ∧ changeLine "abc%" = "- **24h Change:** abc%\n" := by
  refine ⟨?_, ?_, ?_⟩
  · exact C7_change_line.1 "5.00%" ⟨500, 2⟩ (by decide) (by decide)
  · exact C7_change_line.2.1 "-3.20%" ⟨-320, 2⟩ (by decide) (by decide)
  · exact C7_change_line.2.2.2.1 "abc%" (by decide) (by decide)

/-- Claim C6: an input with fewer than two whitespace-separated tokens,
or whose first token is not a recognized command, makes both dispatcher
variants return a usage/guidance message with a nil error and no network
call. -/
theorem C6_usage_no_network (w : World) (w2 : WorldV2) (input : String) :
    ((goFields input).length < 2 →
      ProcessTask w input = ("Please specify a command (/price or /market) and a token symbol or contract address.", false, []))
  ∧ (∀ c0 a rest, goFields input = c0 :: a :: rest →
      goToLower c0 ≠ "/price" → goToLower c0 ≠ "/market" →
      ProcessTask w input = ("Unknown command: " ++ goToLower c0 ++ ". Use /price or /market.", false, []))
  ∧ (goFields (prepTask input) = [] →
      ProcessTaskV2 w2 input = ("No command provided. Available commands: price [symbol], market [symbol]", false, []))
  ∧ (∀ c, goFields (prepTask input) = [c] →
      ProcessTaskV2 w2 input =
        ((if c = "price" then "Please specify a cryptocurrency symbol (e.g., price bitcoin)"
          else if c = "market" then "Please specify a cryptocurrency symbol (e.g., market ethereum)"
          else "Unknown command '" ++ c ++ "'. Available commands: price [symbol], market [symbol]"), false, []))
  ∧ (∀ c a rest, goFields (prepTask input) = c :: a :: rest → c ≠ "price" → c ≠ "market" →
      ProcessTaskV2 w2 input = ("Unknown command '" ++ c ++ "'. Available commands: price [symbol], market [symbol]", false, [])) := by
  refine ⟨?_, ?_, ?_, ?_, ?_⟩
  · intro h
    unfold ProcessTask
    rcases hf : goFields input with _ | ⟨x, _ | ⟨y, t⟩⟩
    · rfl
    · rfl
    · rw [hf] at h; simp at h; omega
  · intro c0 a rest hf h1 h2
    unfold ProcessTask
    rw [hf]
    simp only [if_pos (And.intro h1 h2)]
  · intro h
    unfold ProcessTaskV2
    rw [h]
  · intro c h
    unfold ProcessTaskV2
    rw [h]
    by_cases hp : c = "price"
    · simp [hp, handlePriceCommand]
    · by_cases hm : c = "market"
      · simp [hp, hm, handleMarketCommand]
      · simp [hp, hm]
  · intro c a rest h h1 h2
    unfold ProcessTaskV2
    rw [h]
    simp [h1, h2]

/-- Witness for C6 on concrete too-short and unknown-command inputs. -/
theorem C6_witness :
    ProcessTask ⟨"k", "", FetchResult.transportError, FetchResult.transportError, FetchResult.transportError⟩ "/price"
      = ("Please specify a command (/price or /market) and a token symbol or contract address.", false, [])
  ∧ ProcessTask ⟨"k", "", FetchResult.transportError, FetchResult.transportError, FetchResult.transportError⟩ "/swap btc"
      = ("Unknown command: /swap. Use /price or /market.", false, [])
  ∧ ProcessTaskV2 ⟨"", FetchResult.transportError, FetchResult.transportError, fun _ => ""⟩ "  "
      = ("No command provided. Available commands: price [symbol], market [symbol]", false, [])
  ∧ ProcessTaskV2 ⟨"", FetchResult.transportError, FetchResult.transportError, fun _ => ""⟩ "/price"
      = ("Please specify a cryptocurrency symbol (e.g., price bitcoin)", false, [])
  ∧ ProcessTaskV2 ⟨"", FetchResult.transportError, FetchResult.transportError, fun _ => ""⟩ "swap btc"
      = ("Unknown command 'swap'. Available commands: price [symbol], market [symbol]", false, []) := by
  refine ⟨?_, ?_, ?_, ?_, ?_⟩
  · exact (C6_usage_no_network _ ⟨"", FetchResult.transportError, FetchResult.transportError, fun _ => ""⟩ "/price").1 (by decide)
  · exact ((C6_usage_no_network _ ⟨"", FetchResult.transportError, FetchResult.transportError, fun _ => ""⟩ "/swap btc").2.1
      "/swap" "btc" [] (by decide) (by decide) (by decide)).trans (by decide)
  · exact (C6_usage_no_network ⟨"k", "", FetchResult.transportError, FetchResult.transportError, FetchResult.transportError⟩ _ "  ").2.2.1 (by decide)
  · exact ((C6_usage_no_network ⟨"k", "", FetchResult.transportError, FetchResult.transportError, FetchResult.transportError⟩ _ "/price").2.2.2.1
      "price" (by decide)).trans (by decide)
  · exact ((C6_usage_no_network ⟨"k", "", FetchResult.transportError, FetchResult.transportError, FetchResult.transportError⟩ _ "swap btc").2.2.2.2
      "swap" "btc" [] (by decide) (by decide) (by decide)).trans (by decide)

/-! ### Dispatcher and client helper lemmas -/

theorem getCMCData_of_key (sym key : String) (fetch : FetchResult CMCResponse) (h : key ≠ "") :
    (getCMCData sym key fetch).called = true
      ∧ (getCMCData sym key fetch).headers = [("X-CMC_PRO_API_KEY", key)] := by
  unfold getCMCData
  rw [if_neg h]
  cases fetch with
  | transportError => exact ⟨rfl, rfl⟩
  | response st d =>
    cases d with
    | none => exact ⟨rfl, rfl⟩
    | some c =>
      dsimp only
      split
      · exact ⟨rfl, rfl⟩
      · rcases hl : goLookup c.data (goToUpper sym) with _ | v <;> simp [hl]

theorem getCoinGeckoData_shape (coinID key : String) (fetch : FetchResult CoinGeckoResponse) :
    (getCoinGeckoData coinID key fetch).called = true
      ∧ (getCoinGeckoData coinID key fetch).headers
          = (if key ≠ "" then [("x-cg-demo-api-key", key)] else []) := by
  unfold getCoinGeckoData
  cases fetch with
  | transportError => exact ⟨rfl, rfl⟩
  | response st d =>
    dsimp only
    split
    · exact ⟨rfl, rfl⟩
    · cases d with
      | none => exact ⟨rfl, rfl⟩
      | some c => exact ⟨rfl, rfl⟩

theorem getDexData_shape (addr : String) (fetch : FetchResult DexscreenerResponse) :
    (getDexData addr fetch).called = true ∧ (getDexData addr fetch).headers = [] := by
  unfold getDexData
  cases fetch with
  | transportError => exact ⟨rfl, rfl⟩
  | response st d =>
    dsimp only
    split
    · exact ⟨rfl, rfl⟩
    · cases d with
      | none => exact ⟨rfl, rfl⟩
      | some c =>
        rcases hp : c.pairs with _ | ⟨p, rest⟩ <;> simp [hp]

/-- Dispatch on a contract-address shaped argument: the DEX branch alone
runs. -/
theorem dispatch_dex (w : World) (input c0 a : String) (rest : List String)
    (hf : goFields input = c0 :: a :: rest)
    (hcmd : goToLower c0 = "/price" ∨ goToLower c0 = "/market")
    (h0x : goStartsWith (goToLower (goTrim a)) "0x" = true)
    (hlen : 40 ≤ (goToLower (goTrim a)).utf8ByteSize) :
    ProcessTask w input =
      (if (getDexData (goToLower (goTrim a)) w.dexFetch).hasErr = true
        then ("Error fetching DEX data.", true, [Provider.dex])
        else (formatOutput (getDexData (goToLower (goTrim a)) w.dexFetch).msg, false, [Provider.dex])) := by
  unfold ProcessTask
  rw [hf]
  have hc : ¬ (goToLower c0 ≠ "/price" ∧ goToLower c0 ≠ "/market") := by
    rcases hcmd with h | h <;> simp [h]
  dsimp only
  rw [if_neg hc, if_pos (And.intro h0x hlen)]

/-- Dispatch on a ticker-shaped argument: the CMC → CoinGecko cascade. -/
theorem dispatch_cex (w : World) (input c0 a : String) (rest : List String)
    (hf : goFields input = c0 :: a :: rest)
    (hcmd : goToLower c0 = "/price" ∨ goToLower c0 = "/market")
    (hnd : ¬ (goStartsWith (goToLower (goTrim a)) "0x" = true
        ∧ 40 ≤ (goToLower (goTrim a)).utf8ByteSize)) :
    ProcessTask w input =
      (if (getCMCData a w.cmcApiKey w.cmcFetch).hasErr = false
          ∧ goContains (getCMCData a w.cmcApiKey w.cmcFetch).msg "CMC could not find market data" = false
        then (formatOutput (getCMCData a w.cmcApiKey w.cmcFetch).msg, false,
          if (getCMCData a w.cmcApiKey w.cmcFetch).called = true then [Provider.cmc] else [])
        else
          if (getCoinGeckoData (getCoinID a) w.cgApiKey w.cgFetch).hasErr = false
              ∧ goContains (getCoinGeckoData (getCoinID a) w.cgApiKey w.cgFetch).msg "Could not find data for" = false
            then (formatOutput (getCoinGeckoData (getCoinID a) w.cgApiKey w.cgFetch).msg, false,
              (if (getCMCData a w.cmcApiKey w.cmcFetch).called = true then [Provider.cmc] else []) ++ [Provider.cg])
            else ("Could not find market data for " ++ a ++ " on CoinMarketCap or CoinGecko. Please ensure the symbol is correct or use a contract address for DEX listings.", false,
              (if (getCMCData a w.cmcApiKey w.cmcFetch).called = true then [Provider.cmc] else []) ++ [Provider.cg])) := by
  unfold ProcessTask
  rw [hf]
  have hc : ¬ (goToLower c0 ≠ "/price" ∧ goToLower c0 ≠ "/market") := by
    rcases hcmd with h | h <;> simp [h]
  dsimp only
  rw [if_neg hc, if_neg hnd]

/-- Counterexample to C1 as stated: with the CMC fetch failing at the
transport level — no definitive "symbol not found" signal, the message is
"Error contacting CoinMarketCap API." — the dispatcher still falls
through to CoinGecko, so the fall-through is not equivalent to a
not-found signal. -/
theorem C1_counterexample :
    (getCMCData "btc" "k" FetchResult.transportError).hasErr = true
  ∧ (getCMCData "btc" "k" FetchResult.transportError).msg = "Error contacting CoinMarketCap API."
  ∧ goContains (getCMCData "btc" "k" FetchResult.transportError).msg "CMC could not find market data" = false
  ∧ (ProcessTask ⟨"k", "", FetchResult.transportError,
      FetchResult.response 200 (some ⟨"bitcoin", "btc", "Bitcoin",
        ⟨⟨100, 0⟩, ⟨90, 0⟩, ⟨500, 2⟩, ⟨1000, 0⟩, ⟨0, 0⟩, ⟨21, 0⟩⟩⟩),
      FetchResult.transportError⟩ "/price btc").2.2 = [Provider.cmc, Provider.cg] := by
  refine ⟨rfl, rfl, by decide, by decide⟩

/-- Claim C1 (amended): on the CEX path with a non-empty CMC key the
dispatcher queries CoinMarketCap first; it falls through to CoinGecko
(translating the ticker through getCoinID) exactly when the CMC call
carries a non-nil error OR its message contains "CMC could not find
market data" — i.e. on transport and decode errors as well as on the
definitive not-found signal, a transport error in particular triggering
the fall-through; when CoinGecko answers with data the result is its
formatted output, and otherwise one final aggregate message naming both
providers is returned. -/
theorem C1_cex_fallback (w : World) (input c0 a : String) (rest : List String)
    (hf : goFields input = c0 :: a :: rest)
    (hcmd : goToLower c0 = "/price" ∨ goToLower c0 = "/market")
    (hnd : ¬ (goStartsWith (goToLower (goTrim a)) "0x" = true
        ∧ 40 ≤ (goToLower (goTrim a)).utf8ByteSize))
    (hkey : w.cmcApiKey ≠ "") :
    ((getCMCData a w.cmcApiKey w.cmcFetch).hasErr = false →
      goContains (getCMCData a w.cmcApiKey w.cmcFetch).msg "CMC could not find market data" = false →
      ProcessTask w input = (formatOutput (getCMCData a w.cmcApiKey w.cmcFetch).msg, false, [Provider.cmc]))
  ∧ (((getCMCData a w.cmcApiKey w.cmcFetch).hasErr = true ∨
      goContains (getCMCData a w.cmcApiKey w.cmcFetch).msg "CMC could not find market data" = true) →
      (getCoinGeckoData (getCoinID a) w.cgApiKey w.cgFetch).hasErr = false →
      goContains (getCoinGeckoData (getCoinID a) w.cgApiKey w.cgFetch).msg "Could not find data for" = false →
      ProcessTask w input = (formatOutput (getCoinGeckoData (getCoinID a) w.cgApiKey w.cgFetch).msg,
        false, [Provider.cmc, Provider.cg]))
  ∧ (((getCMCData a w.cmcApiKey w.cmcFetch).hasErr = true ∨
      goContains (getCMCData a w.cmcApiKey w.cmcFetch).msg "CMC could not find market data" = true) →
      ((getCoinGeckoData (getCoinID a) w.cgApiKey w.cgFetch).hasErr = true ∨
        goContains (getCoinGeckoData (getCoinID a) w.cgApiKey w.cgFetch).msg "Could not find data for" = true) →
      ProcessTask w input = ("Could not find market data for " ++ a ++ " on CoinMarketCap or CoinGecko. Please ensure the symbol is correct or use a contract address for DEX listings.",
        false, [Provider.cmc, Provider.cg]))
  ∧ (w.cmcFetch = FetchResult.transportError → (getCMCData a w.cmcApiKey w.cmcFetch).hasErr = true) := by
  have hd := dispatch_cex w input c0 a rest hf hcmd hnd
  have hcalled := (getCMCData_of_key a w.cmcApiKey w.cmcFetch hkey).1
  refine ⟨?_, ?_, ?_, ?_⟩
  · intro h1 h2
    rw [hd, if_pos (And.intro h1 h2), hcalled]
    simp
  · intro hor hg1 hg2
    have hcond : ¬ ((getCMCData a w.cmcApiKey w.cmcFetch).hasErr = false
        ∧ goContains (getCMCData a w.cmcApiKey w.cmcFetch).msg "CMC could not find market data" = false) := by
      rcases hor with h | h <;> simp [h]
    rw [hd, if_neg hcond, if_pos (And.intro hg1 hg2), hcalled]
    simp
  · intro hor hgor
    have hcond : ¬ ((getCMCData a w.cmcApiKey w.cmcFetch).hasErr = false
        ∧ goContains (getCMCData a w.cmcApiKey w.cmcFetch).msg "CMC could not find market data" = false) := by
      rcases hor with h | h <;> simp [h]
    have hgcond : ¬ ((getCoinGeckoData (getCoinID a) w.cgApiKey w.cgFetch).hasErr = false
        ∧ goContains (getCoinGeckoData (getCoinID a) w.cgApiKey w.cgFetch).msg "Could not find data for" = false) := by
      rcases hgor with h | h <;> simp [h]
    rw [hd, if_neg hcond, if_neg hgcond, hcalled]
    simp
  · intro h
    rw [h]
    unfold getCMCData
    rw [if_neg hkey]

/-- Witness for C1 (amended) on the not-found / not-found branch: the
final aggregate message names both providers. -/
theorem C1_witness :
    goFields "/price xyzcoin" = ["/price", "xyzcoin"]
  ∧ goToLower "/price" = "/price"
  ∧ (getCMCData "xyzcoin" "k" (FetchResult.response 200
      (some ⟨⟨400, "symbol not found"⟩, []⟩))).hasErr = false
  ∧ goContains (getCMCData "xyzcoin" "k" (FetchResult.response 200
      (some ⟨⟨400, "symbol not found"⟩, []⟩))).msg "CMC could not find market data" = true
  ∧ ProcessTask ⟨"k", "", FetchResult.response 200 (some ⟨⟨400, "symbol not found"⟩, []⟩),
        FetchResult.response 404 none, FetchResult.transportError⟩ "/price xyzcoin"
      = ("Could not find market data for xyzcoin on CoinMarketCap or CoinGecko. Please ensure the symbol is correct or use a contract address for DEX listings.",
        false, [Provider.cmc, Provider.cg]) := by
  refine ⟨by decide, by decide, by decide, by decide, ?_⟩
  exact (C1_cex_fallback ⟨"k", "", FetchResult.response 200 (some ⟨⟨400, "symbol not found"⟩, []⟩),
      FetchResult.response 404 none, FetchResult.transportError⟩ "/price xyzcoin"
      "/price" "xyzcoin" [] (by decide) (Or.inl (by decide)) (by decide) (by decide)).2.2.1
    (Or.inr (by decide)) (Or.inr (by decide))

/-- Counterexample to C2 as stated: on a contract-shaped input whose DEX
fetch fails at the transport level, the dispatcher returns the literal
"Error fetching DEX data." with a non-nil error — not the DEX provider's
formatted result — though it still contacts no centralized provider. -/
theorem C2_counterexample :
    ProcessTask ⟨"k", "", FetchResult.transportError, FetchResult.transportError, FetchResult.transportError⟩
        "/price 0xaaaaaaaaaaaaaaaaaaaaaaaaaaaaaaaaaaaaaaaa"
      = ("Error fetching DEX data.", true, [Provider.dex])
  ∧ "Error fetching DEX data."
      ≠ formatOutput (getDexData "0xaaaaaaaaaaaaaaaaaaaaaaaaaaaaaaaaaaaaaaaa" FetchResult.transportError).msg := by
  refine ⟨by decide, by decide⟩

/-- Claim C2 (amended): an input whose second token, trimmed and
lowercased, starts with "0x" and is at least 40 bytes long routes
exclusively to Dexscreener: the centralized providers are never
contacted, the result is the DEX provider's formatted output whenever the
DEX call carries no error — including the "no pairs" report — and on a
DEX transport or decode error it is "Error fetching DEX data." together
with that error. -/
theorem C2_dex_exclusive (w : World) (input c0 a : String) (rest : List String)
    (hf : goFields input = c0 :: a :: rest)
    (hcmd : goToLower c0 = "/price" ∨ goToLower c0 = "/market")
    (h0x : goStartsWith (goToLower (goTrim a)) "0x" = true)
    (hlen : 40 ≤ (goToLower (goTrim a)).utf8ByteSize) :
    ProcessTask w input =
      (if (getDexData (goToLower (goTrim a)) w.dexFetch).hasErr = true
        then ("Error fetching DEX data.", true, [Provider.dex])
        else (formatOutput (getDexData (goToLower (goTrim a)) w.dexFetch).msg, false, [Provider.dex]))
  ∧ Provider.cmc ∉ (ProcessTask w input).2.2
  ∧ Provider.cg ∉ (ProcessTask w input).2.2
  ∧ (w.dexFetch = FetchResult.response 200 (some ⟨[]⟩) →
      ProcessTask w input
        = (formatOutput "Dexscreener found no pairs for that token address.", false, [Provider.dex])) := by
  have hd := dispatch_dex w input c0 a rest hf hcmd h0x hlen
  refine ⟨hd, ?_, ?_, ?_⟩
  · rw [hd]; split <;> simp
  · rw [hd]; split <;> simp
  · intro hdex
    rw [hd, hdex]
    simp [getDexData]

/-- Witness for C2 (amended) on the no-pairs outcome. -/
theorem C2_witness :
    goFields "/market 0xAAAAAAAAAAAAAAAAAAAAAAAAAAAAAAAAAAAAAAAA" = ["/market", "0xAAAAAAAAAAAAAAAAAAAAAAAAAAAAAAAAAAAAAAAA"]
  ∧ goStartsWith (goToLower (goTrim "0xAAAAAAAAAAAAAAAAAAAAAAAAAAAAAAAAAAAAAAAA")) "0x" = true
  ∧ ProcessTask ⟨"k", "", FetchResult.transportError, FetchResult.transportError,
        FetchResult.response 200 (some ⟨[]⟩)⟩ "/market 0xAAAAAAAAAAAAAAAAAAAAAAAAAAAAAAAAAAAAAAAA"
      = (formatOutput "Dexscreener found no pairs for that token address.", false, [Provider.dex]) := by
  refine ⟨by decide, by decide, ?_⟩
  exact (C2_dex_exclusive ⟨"k", "", FetchResult.transportError, FetchResult.transportError,
      FetchResult.response 200 (some ⟨[]⟩)⟩ "/market 0xAAAAAAAAAAAAAAAAAAAAAAAAAAAAAAAAAAAAAAAA"
      "/market" "0xAAAAAAAAAAAAAAAAAAAAAAAAAAAAAAAAAAAAAAAA" [] (by decide) (Or.inr (by decide))
      (by decide) (by decide)).2.2.2 rfl

/-- Counterexample to C3 as stated: on the CEX path a transport failure
of both centralized providers is NOT surfaced as an error — ProcessTask
returns the aggregate not-found message with a nil error. -/
theorem C3_counterexample :
    (⟨"k", "", FetchResult.transportError, FetchResult.transportError, FetchResult.transportError⟩ : World).cmcFetch
        = FetchResult.transportError
  ∧ ProcessTask ⟨"k", "", FetchResult.transportError, FetchResult.transportError, FetchResult.transportError⟩ "/price btc"
      = ("Could not find market data for btc on CoinMarketCap or CoinGecko. Please ensure the symbol is correct or use a contract address for DEX listings.",
        false, [Provider.cmc, Provider.cg]) := by
  refine ⟨rfl, by decide⟩

/-- Claim C3 (amended): each client surfaces its own transport failure
with a non-nil error ("Error contacting …" for the centralized providers,
an empty message for Dexscreener), and ProcessTask surfaces a transport
failure with a non-nil error only on the DEX path ("Error fetching DEX
data."); on the CEX path a CMC transport error silently triggers the
fall-through to CoinGecko, and a CoinGecko transport error then yields
the aggregate not-found message with a nil error. -/
theorem C3_transport_surfacing :
    (∀ sym key : String, key ≠ "" →
      getCMCData sym key FetchResult.transportError
        = ⟨"Error contacting CoinMarketCap API.", true, true, [("X-CMC_PRO_API_KEY", key)]⟩)
  ∧ (∀ coinID key : String,
      getCoinGeckoData coinID key FetchResult.transportError
        = ⟨"Error contacting CoinGecko API.", true, true,
            if key ≠ "" then [("x-cg-demo-api-key", key)] else []⟩)
  ∧ (∀ addr : String, getDexData addr FetchResult.transportError = ⟨"", true, true, []⟩)
  ∧ (∀ (w : World) (input c0 a : String) (rest : List String),
      goFields input = c0 :: a :: rest →
      (goToLower c0 = "/price" ∨ goToLower c0 = "/market") →
      goStartsWith (goToLower (goTrim a)) "0x" = true →
      40 ≤ (goToLower (goTrim a)).utf8ByteSize →
      w.dexFetch = FetchResult.transportError →
      ProcessTask w input = ("Error fetching DEX data.", true, [Provider.dex]))
  ∧ (∀ (w : World) (input c0 a : String) (rest : List String),
      goFields input = c0 :: a :: rest →
      (goToLower c0 = "/price" ∨ goToLower c0 = "/market") →
      ¬ (goStartsWith (goToLower (goTrim a)) "0x" = true ∧ 40 ≤ (goToLower (goTrim a)).utf8ByteSize) →
      w.cmcApiKey ≠ "" →
      w.cmcFetch = FetchResult.transportError →
      Provider.cg ∈ (ProcessTask w input).2.2)
  ∧ (∀ (w : World) (input c0 a : String) (rest : List String),
      goFields input = c0 :: a :: rest →
      (goToLower c0 = "/price" ∨ goToLower c0 = "/market") →
      ¬ (goStartsWith (goToLower (goTrim a)) "0x" = true ∧ 40 ≤ (goToLower (goTrim a)).utf8ByteSize) →
      w.cmcApiKey ≠ "" →
      w.cmcFetch = FetchResult.transportError →
      w.cgFetch = FetchResult.transportError →
      ProcessTask w input
        = ("Could not find market data for " ++ a ++ " on CoinMarketCap or CoinGecko. Please ensure the symbol is correct or use a contract address for DEX listings.",
          false, [Provider.cmc, Provider.cg])) := by
  refine ⟨?_, ?_, fun _ => rfl, ?_, ?_, ?_⟩
  · intro sym key h
    unfold getCMCData
    rw [if_neg h]
  · intro coinID key
    rfl
  · intro w input c0 a rest hf hcmd h0x hlen hdex
    rw [dispatch_dex w input c0 a rest hf hcmd h0x hlen, hdex]
    rfl
  · intro w input c0 a rest hf hcmd hnd hkey hcmc
    have hrc : getCMCData a w.cmcApiKey w.cmcFetch
        = ⟨"Error contacting CoinMarketCap API.", true, true, [("X-CMC_PRO_API_KEY", w.cmcApiKey)]⟩ := by
      rw [hcmc]; unfold getCMCData; rw [if_neg hkey]
    rw [dispatch_cex w input c0 a rest hf hcmd hnd, hrc]
    dsimp only
    rw [if_neg (by simp)]
    split <;> simp
  · intro w input c0 a rest hf hcmd hnd hkey hcmc hcg
    have hrc : getCMCData a w.cmcApiKey w.cmcFetch
        = ⟨"Error contacting CoinMarketCap API.", true, true, [("X-CMC_PRO_API_KEY", w.cmcApiKey)]⟩ := by
      rw [hcmc]; unfold getCMCData; rw [if_neg hkey]
    have hrg : getCoinGeckoData (getCoinID a) w.cgApiKey w.cgFetch
        = ⟨"Error contacting CoinGecko API.", true, true,
            if w.cgApiKey ≠ "" then [("x-cg-demo-api-key", w.cgApiKey)] else []⟩ := by
      rw [hcg]; rfl
    rw [dispatch_cex w input c0 a rest hf hcmd hnd, hrc, hrg]
    dsimp only
    rw [if_neg (by simp), if_neg (by simp)]
    rfl

/-- Witness for C3 (amended): client-level transport results and the DEX
path error surface at concrete inputs. -/
theorem C3_witness :
    getCMCData "eth" "key1" FetchResult.transportError
      = ⟨"Error contacting CoinMarketCap API.", true, true, [("X-CMC_PRO_API_KEY", "key1")]⟩
  ∧ getCoinGeckoData "ethereum" "" FetchResult.transportError
      = ⟨"Error contacting CoinGecko API.", true, true, []⟩
  ∧ getDexData "0xbbbb" FetchResult.transportError = ⟨"", true, true, []⟩
  ∧ ProcessTask ⟨"k", "", FetchResult.transportError, FetchResult.transportError, FetchResult.transportError⟩
        "/market 0xbbbbbbbbbbbbbbbbbbbbbbbbbbbbbbbbbbbbbbbb"
      = ("Error fetching DEX data.", true, [Provider.dex])
  ∧ ProcessTask ⟨"k", "", FetchResult.transportError, FetchResult.transportError, FetchResult.transportError⟩
        "/market eth"
      = ("Could not find market data for eth on CoinMarketCap or CoinGecko. Please ensure the symbol is correct or use a contract address for DEX listings.",
        false, [Provider.cmc, Provider.cg]) := by
  refine ⟨C3_transport_surfacing.1 "eth" "key1" (by decide),
    (C3_transport_surfacing.2.1 "ethereum" "").trans (by decide),
    C3_transport_surfacing.2.2.1 "0xbbbb", ?_, ?_⟩
  · exact C3_transport_surfacing.2.2.2.1 _ _ "/market" "0xbbbbbbbbbbbbbbbbbbbbbbbbbbbbbbbbbbbbbbbb" []
      (by decide) (Or.inr (by decide)) (by decide) (by decide) rfl
  · exact C3_transport_surfacing.2.2.2.2.2 _ _ "/market" "eth" []
      (by decide) (Or.inr (by decide)) (by decide) (by decide) rfl rfl

/-- Counterexample to C4 as stated: the CMC client does NOT turn a
non-success HTTP status into a "returned status" message — it never
inspects the status at all, and here serves market data from a status-500
response. -/
theorem C4_counterexample :
    (getCMCData "btc" "k" (FetchResult.response 500
        (some ⟨⟨0, ""⟩, [("BTC", ⟨1, "Bitcoin", "BTC", ⟨0, 0⟩, ⟨0, 0⟩,
          ⟨⟨100, 0⟩, ⟨0, 0⟩, ⟨0, 0⟩, ⟨0, 0⟩⟩⟩)]⟩))).hasErr = false
  ∧ (getCMCData "btc" "k" (FetchResult.response 500
        (some ⟨⟨0, ""⟩, [("BTC", ⟨1, "Bitcoin", "BTC", ⟨0, 0⟩, ⟨0, 0⟩,
          ⟨⟨100, 0⟩, ⟨0, 0⟩, ⟨0, 0⟩, ⟨0, 0⟩⟩⟩)]⟩))).msg
      = cmcSuccessMsg ⟨1, "Bitcoin", "BTC", ⟨0, 0⟩, ⟨0, 0⟩, ⟨⟨100, 0⟩, ⟨0, 0⟩, ⟨0, 0⟩, ⟨0, 0⟩⟩⟩
  ∧ goContains (getCMCData "btc" "k" (FetchResult.response 500
        (some ⟨⟨0, ""⟩, [("BTC", ⟨1, "Bitcoin", "BTC", ⟨0, 0⟩, ⟨0, 0⟩,
          ⟨⟨100, 0⟩, ⟨0, 0⟩, ⟨0, 0⟩, ⟨0, 0⟩⟩⟩)]⟩))).msg "returned status" = false := by
  refine ⟨by decide, by decide, by decide⟩

/-- Claim C4 (amended): the CoinGecko and Dexscreener clients turn a
non-success HTTP status into a textual "returned status" message with a
nil error, while the CMC client ignores the HTTP status entirely (its
result is the same for any two status codes); in all three clients a JSON
decoding failure of the (status-200, for CG/Dex) response body yields a
message with a non-nil error. -/
theorem C4_status_vs_decode :
    (∀ (coinID key : String) (st : Nat) (d : Option CoinGeckoResponse), st ≠ 200 →
      getCoinGeckoData coinID key (FetchResult.response st d)
        = ⟨"Error: CoinGecko API returned status " ++ Nat.repr st ++ ". Could not find data for " ++ coinID ++ ".",
            false, true, if key ≠ "" then [("x-cg-demo-api-key", key)] else []⟩)
  ∧ (∀ (addr : String) (st : Nat) (d : Option DexscreenerResponse), st ≠ 200 →
      getDexData addr (FetchResult.response st d)
        = ⟨"Dexscreener Error: API returned status " ++ Nat.repr st ++ ".", false, true, []⟩)
  ∧ (∀ coinID key : String,
      getCoinGeckoData coinID key (FetchResult.response 200 none)
        = ⟨"Error processing CG API response.", true, true,
            if key ≠ "" then [("x-cg-demo-api-key", key)] else []⟩)
  ∧ (∀ addr : String,
      getDexData addr (FetchResult.response 200 none)
        = ⟨"Error processing Dexscreener response.", true, true, []⟩)
  ∧ (∀ (sym key : String) (st : Nat), key ≠ "" →
      getCMCData sym key (FetchResult.response st none)
        = ⟨"Error processing CMC API response.", true, true, [("X-CMC_PRO_API_KEY", key)]⟩)
  ∧ (∀ (sym key : String) (st st' : Nat) (d : Option CMCResponse),
      getCMCData sym key (FetchResult.response st d) = getCMCData sym key (FetchResult.response st' d)) := by
  refine ⟨?_, ?_, ?_, ?_, ?_, ?_⟩
  · intro coinID key st d h
    unfold getCoinGeckoData
    dsimp only
    rw [if_pos h]
  · intro addr st d h
    unfold getDexData
    dsimp only
    rw [if_pos h]
  · intro coinID key
    rfl
  · intro addr
    rfl
  · intro sym key st h
    unfold getCMCData
    rw [if_neg h]
  · intro sym key st st' d
    unfold getCMCData
    by_cases hk : key = "" <;> simp [hk]

/-- Witness for C4 (amended) at concrete non-success statuses and decode
failures. -/
theorem C4_witness :
    getCoinGeckoData "bitcoin" "" (FetchResult.response 429 none)
      = ⟨"Error: CoinGecko API returned status 429. Could not find data for bitcoin.", false, true, []⟩
  ∧ getDexData "0xcc" (FetchResult.response 500 none)
      = ⟨"Dexscreener Error: API returned status 500.", false, true, []⟩
  ∧ getCoinGeckoData "bitcoin" "" (FetchResult.response 200 none)
      = ⟨"Error processing CG API response.", true, true, []⟩
  ∧ getDexData "0xcc" (FetchResult.response 200 none)
      = ⟨"Error processing Dexscreener response.", true, true, []⟩
  ∧ getCMCData "btc" "k" (FetchResult.response 200 none)
      = ⟨"Error processing CMC API response.", true, true, [("X-CMC_PRO_API_KEY", "k")]⟩
  ∧ getCMCData "btc" "k" (FetchResult.response 500 none)
      = getCMCData "btc" "k" (FetchResult.response 200 none) := by
  refine ⟨(C4_status_vs_decode.1 "bitcoin" "" 429 none (by decide)).trans (by decide),
    (C4_status_vs_decode.2.1 "0xcc" 500 none (by decide)).trans (by decide),
    (C4_status_vs_decode.2.2.1 "bitcoin" "").trans (by decide),
    C4_status_vs_decode.2.2.2.1 "0xcc",
    C4_status_vs_decode.2.2.2.2.1 "btc" "k" 200 (by decide),
    C4_status_vs_decode.2.2.2.2.2 "btc" "k" 500 200 none⟩

/-- Counterexample to C5 as stated: with an empty CMC_API_KEY the CMC
client refuses to issue the GET request at all (called = false), instead
of proceeding unauthenticated. -/
theorem C5_counterexample :
    getCMCData "btc" "" FetchResult.transportError
      = ⟨"Error: CMC_API_KEY not found in .env file.", false, false, []⟩
  ∧ (getCMCData "btc" "" FetchResult.transportError).called = false := by
  refine ⟨rfl, rfl⟩

/-- Claim C5 (amended): the CoinGecko client attaches its auth header
exactly when its key is non-empty and always issues the GET; the
Dexscreener client uses no credential and always issues the GET; the CMC
client attaches its header and issues the GET when its key is non-empty,
but with an empty key it returns a key-missing message with a nil error
WITHOUT issuing the request (not fatal: the dispatcher still proceeds). -/
theorem C5_auth_headers :
    (∀ (coinID key : String) (fetch : FetchResult CoinGeckoResponse),
      (getCoinGeckoData coinID key fetch).headers = (if key ≠ "" then [("x-cg-demo-api-key", key)] else [])
        ∧ (getCoinGeckoData coinID key fetch).called = true)
  ∧ (∀ (addr : String) (fetch : FetchResult DexscreenerResponse),
      (getDexData addr fetch).headers = [] ∧ (getDexData addr fetch).called = true)
  ∧ (∀ (sym key : String) (fetch : FetchResult CMCResponse), key ≠ "" →
      (getCMCData sym key fetch).headers = [("X-CMC_PRO_API_KEY", key)]
        ∧ (getCMCData sym key fetch).called = true)
  ∧ (∀ (sym : String) (fetch : FetchResult CMCResponse),
      getCMCData sym "" fetch = ⟨"Error: CMC_API_KEY not found in .env file.", false, false, []⟩) := by
  refine ⟨?_, ?_, ?_, fun _ _ => rfl⟩
  · intro coinID key fetch
    have h := getCoinGeckoData_shape coinID key fetch
    exact ⟨h.2, h.1⟩
  · intro addr fetch
    have h := getDexData_shape addr fetch
    exact ⟨h.2, h.1⟩
  · intro sym key fetch h
    have h' := getCMCData_of_key sym key fetch h
    exact ⟨h'.2, h'.1⟩

/-- Witness for C5 (amended) at concrete keys. -/
theorem C5_witness :
    ((getCoinGeckoData "bitcoin" "cgk" FetchResult.transportError).headers = [("x-cg-demo-api-key", "cgk")]
      ∧ (getCoinGeckoData "bitcoin" "cgk" FetchResult.transportError).called = true)
  ∧ ((getCoinGeckoData "bitcoin" "" FetchResult.transportError).headers = []
      ∧ (getCoinGeckoData "bitcoin" "" FetchResult.transportError).called = true)
  ∧ ((getDexData "0xdd" FetchResult.transportError).headers = []
      ∧ (getDexData "0xdd" FetchResult.transportError).called = true)
  ∧ ((getCMCData "btc" "cmck" FetchResult.transportError).headers = [("X-CMC_PRO_API_KEY", "cmck")]
      ∧ (getCMCData "btc" "cmck" FetchResult.transportError).called = true) := by
  refine ⟨?_, ?_, C5_auth_headers.2.1 "0xdd" FetchResult.transportError,
    C5_auth_headers.2.2.1 "btc" "cmck" FetchResult.transportError (by decide)⟩
  · have h := C5_auth_headers.1 "bitcoin" "cgk" FetchResult.transportError
    exact ⟨h.1.trans (by decide), h.2⟩
  · have h := C5_auth_headers.1 "bitcoin" "" FetchResult.transportError
    exact ⟨h.1.trans (by decide), h.2⟩

end PMO
